import Mathlib

/-!
Verification development for the dropboxfs module (a PyFilesystem backend
for the Dropbox API).  The Python source in `dropboxfs.py` is shallowly
embedded below: bytes are `List Nat`, Python integers are `Int` (or `Nat`
where the source value is a length), fallible operations return `Except`
or `Option`, and the remote Dropbox API is an explicit parameter giving
the outcome of each remote call.  Every definition mirrors the
corresponding Python function; deviations forced by the embedding are
documented on the definition.
-/

/-- Constant `CACHE_TTL = 300` from the source: items in cache are
considered expired after 5 minutes. -/
def CACHE_TTL : Int := 300

/-- Constant `MAX_BUFFER = 1024 ** 2 * 5` from the source: max size for
spooling to memory before using disk. -/
def MAX_BUFFER : Nat := 1024 ^ 2 * 5

/-! ## SpooledWriter -/

/-- Backing store of a `SpooledWriter`: the in-memory `StringIO` buffer or
an on-disk `tempfile.TemporaryFile`. -/
inductive Backing where
  | memory
  | disk
deriving DecidableEq, Repr

/-- State of a `SpooledWriter`.  `buf` is the full content of the current
backing object (`self.temp`); since the writer only ever appends,
`self.temp.tell()` equals `buf.length` at every point between writes
(after the memory-to-disk copy, `shutil.copyfileobj` likewise leaves the
new file's position at its end).  `spools` instruments the body of the
rollover branch in `write`: it counts how many times a fresh
`tempfile.TemporaryFile()` has been created and made the active backing. -/
structure SpooledWriter where
  backing : Backing
  buf : List Nat
  max_buffer : Nat
  bytes : Nat
  spools : Nat
deriving DecidableEq, Repr

/-- Python `SpooledWriter.__init__`: starts with an empty `StringIO`
buffer and zero bytes written. -/
def SpooledWriter.init (max_buffer : Nat := MAX_BUFFER) : SpooledWriter :=
  { backing := Backing.memory, buf := [], max_buffer := max_buffer,
    bytes := 0, spools := 0 }

/-- Python `SpooledWriter.write(data)`: when
`self.temp.tell() + len(data) >= self.max_buffer` a new
`tempfile.TemporaryFile()` is created, the current contents are copied to
it verbatim, and it becomes `self.temp`; then `data` is appended and the
byte counter advances.  Note the source performs the rollover whenever the
condition holds, with no check of whether the backing is already a disk
file. -/
def SpooledWriter.write (w : SpooledWriter) (data : List Nat) : SpooledWriter :=
  let w :=
    if w.buf.length + data.length ≥ w.max_buffer then
      { w with backing := Backing.disk, spools := w.spools + 1 }
    else w
  { w with buf := w.buf ++ data, bytes := w.bytes + data.length }

/-! ## ChunkedReader -/

/-- Model of the sequential HTTP download body (`response.raw`, a urllib3
stream): the full payload from byte 0, how many bytes have been consumed,
and whether the stream is closed.  `read` follows Python file semantics:
an absent or negative amount reads everything remaining. -/
structure RawStream where
  data : List Nat
  consumed : Nat
  closed : Bool
deriving DecidableEq, Repr

/-- Sequential `read` on the raw download stream. -/
def RawStream.read (s : RawStream) (amt : Option Int) : List Nat × RawStream :=
  if s.closed then ([], s)
  else
    let remaining := s.data.drop s.consumed
    let chunk :=
      match amt with
      | none => remaining
      | some a => if a < 0 then remaining else remaining.take a.toNat
    (chunk, { s with consumed := s.consumed + chunk.length })

/-- Python `client.files_download(name)`: opens a fresh sequential stream
over the file content from byte 0. -/
def filesDownload (content : List Nat) : RawStream :=
  { data := content, consumed := 0, closed := false }

/-- State of a `ChunkedReader`.  `content` stands for the pair
`(self.client, self.name)`: the remote file a `files_download` call
streams.  `bytes` is the declared Content-Length, `pos` the physical
stream position, `seek_pos` the logical position. -/
structure ChunkedReader where
  content : List Nat
  r : RawStream
  bytes : Nat
  closed : Bool
  pos : Int
  seek_pos : Int
deriving DecidableEq, Repr

/-- Python `ChunkedReader.__init__`: downloads the file, reads the length
from the Content-Length header, and zeroes both positions. -/
def ChunkedReader.init (content : List Nat) : ChunkedReader :=
  { content := content, r := filesDownload content, bytes := content.length,
    closed := false, pos := 0, seek_pos := 0 }

/-- Python `ChunkedReader.close`: closes the raw stream if it is open and
marks the reader closed; idempotent. -/
def ChunkedReader.close (rd : ChunkedReader) : ChunkedReader :=
  let rd :=
    if rd.r.closed = false then { rd with r := { rd.r with closed := true } }
    else rd
  if rd.closed = false then { rd with closed := true } else rd

/-- Python `ChunkedReader.seek(offset, whence)`.  For `whence == 2` the
source evaluates `self.size + offset`; the `ChunkedReader` constructor
never sets a `size` attribute (it stores the length in `self.bytes`), and
`__getattr__` delegates the lookup to the wrapped urllib3 response, which
has no `size` attribute either, so the lookup raises `AttributeError`.
That failure is modelled as `none`. -/
def ChunkedReader.seek (rd : ChunkedReader) (offset : Int) (whence : Nat := 0) :
    Option ChunkedReader :=
  if whence = 0 then some { rd with seek_pos := offset }
  else if whence = 1 then some { rd with seek_pos := rd.seek_pos + offset }
  else if whence = 2 then none
  else some rd

/-- Python `ChunkedReader.tell`. -/
def ChunkedReader.tell (rd : ChunkedReader) : Int :=
  rd.seek_pos

/-- Python `ChunkedReader.read(amt=None)`.  The returned `Option` models
the dynamic possibility of returning Python `None`; every branch of the
source returns bytes (possibly empty), hence `some`.  Mirrors the source
exactly, including the reconciliation call
`self.r.read(self.pos - self.seek_pos)` on a forward gap (its argument is
negative there) and the `if amt:` truthiness test that treats `amt = 0`
like an absent amount. -/
def ChunkedReader.read (rd : ChunkedReader) (amt : Option Int) :
    Option (List Nat) × ChunkedReader :=
  if rd.r.closed = false then
    let rd :=
      if rd.seek_pos < rd.pos then
        let r1 := (RawStream.read (filesDownload rd.content) (some rd.seek_pos)).2
        { rd with r := r1 }
      else if rd.seek_pos > rd.pos then
        { rd with r := (rd.r.read (some (rd.pos - rd.seek_pos))).2 }
      else rd
    let rd := { rd with pos := rd.seek_pos }
    let rd :=
      match amt with
      | some a =>
        if a ≠ 0 then { rd with pos := rd.pos + a, seek_pos := rd.seek_pos + a }
        else { rd with pos := (rd.bytes : Int), seek_pos := (rd.bytes : Int) }
      | none => { rd with pos := (rd.bytes : Int), seek_pos := (rd.bytes : Int) }
    let res := rd.r.read amt
    (some res.1, { rd with r := res.2 })
  else
    (some [], rd.close)

/-- Python `ChunkedReader.__next__`: raises `StopIteration` (modelled as
`Except.error ()`) exactly when `read()` returns `None`. -/
def ChunkedReader.next (rd : ChunkedReader) :
    Except Unit (List Nat × ChunkedReader) :=
  match rd.read none with
  | (none, _) => Except.error ()
  | (some d, rd') => Except.ok (d, rd')

/-! ## Paths and metadata -/

/-- Absolute paths, modelled as their component list (so the root `/` is
`[]` and `/a/b` is `["a", "b"]`).  The external library function
`fs.path.pathsplit` splits off the final component. -/
abbrev DbPath := List String

/-- Library `pathsplit(path)`: dirname and basename of a path. -/
def pathsplit (p : DbPath) : DbPath × String :=
  (p.dropLast, p.getLastD "")

/-- Normalized projection of the Dropbox SDK metadata classes
`FileMetadata`, `FolderMetadata` and `DeletedMetadata`, with their `name`,
`path_display` and (for files) `size` and `server_modified` fields. -/
inductive Metadata where
  | file (nm : String) (pd : DbPath) (sz : Nat) (sm : Option Int)
  | folder (nm : String) (pd : DbPath)
  | deleted (nm : String) (pd : DbPath)
deriving DecidableEq, Repr

/-- Field `metadata.name`. -/
def Metadata.name : Metadata → String
  | .file nm _ _ _ => nm
  | .folder nm _ => nm
  | .deleted nm _ => nm

/-- Field `metadata.path_display`. -/
def Metadata.path_display : Metadata → DbPath
  | .file _ pd _ _ => pd
  | .folder _ pd => pd
  | .deleted _ pd => pd

/-- Python `isinstance(metadata, FolderMetadata)`. -/
def Metadata.isFolder : Metadata → Bool
  | .folder _ _ => true
  | _ => false

/-- Python `isinstance(metadata, DeletedMetadata)`. -/
def Metadata.isDeleted : Metadata → Bool
  | .deleted _ _ => true
  | _ => false

/-- Python `getattr(metadata, 'size', 0)`: only `FileMetadata` has a
`size` attribute. -/
def Metadata.sizeAttr : Metadata → Nat
  | .file _ _ sz _ => sz
  | _ => 0

/-- Python `getattr(metadata, 'server_modified', None)`: only
`FileMetadata` carries a server-modified time. -/
def Metadata.serverModifiedAttr : Metadata → Option Int
  | .file _ _ _ sm => sm
  | _ => none

/-- Result record of `metadata_to_info`.  The source additionally converts
a present `modified_time` from UTC into a fixed display timezone; that
conversion reinterprets the same instant and is not modelled. -/
structure Info where
  size : Nat
  isdir : Bool
  isfile : Bool
  modified_time : Option Int
  path : String
deriving DecidableEq, Repr

/-- Python `metadata_to_info(metadata)`. -/
def metadata_to_info (m : Metadata) : Info :=
  let isdir := m.isFolder
  { size := m.sizeAttr, isdir := isdir, isfile := !isdir,
    modified_time := m.serverModifiedAttr, path := m.name }

/-! ## CacheItem and DropboxCache -/

/-- Python class `CacheItem`: per-path metadata, the children contained
within the path, and the timestamp of the entry.  `time.time()` is passed
explicitly as `now` wherever the source reads the clock. -/
structure CacheItem where
  metadata : Option Metadata
  children : Option (List String)
  timestamp : Int
deriving DecidableEq, Repr

/-- Python `CacheItem.add_child(name)`. -/
def CacheItem.add_child (it : CacheItem) (nm : String) : CacheItem :=
  match it.children with
  | none => { it with children := some [nm] }
  | some l => { it with children := some (l ++ [nm]) }

/-- Python `CacheItem.del_child(name)`: removes the first occurrence of
`name` from the children, and is the identity when `children` is `None`
or `name` is absent (the `ValueError` guard); `List.erase` has exactly
these semantics. -/
def CacheItem.del_child (it : CacheItem) (nm : String) : CacheItem :=
  match it.children with
  | none => it
  | some l => { it with children := some (l.erase nm) }

/-- Python property `CacheItem.expired`: the body returns `True` when
`self.timestamp <= time.time() - CACHE_TTL` and otherwise falls through
returning `None`, which is falsy; hence a `Bool`. -/
def CacheItem.expired (it : CacheItem) (now : Int) : Bool :=
  decide (it.timestamp ≤ now - CACHE_TTL)

/-- Python `CacheItem.renew()`. -/
def CacheItem.renew (it : CacheItem) (now : Int) : CacheItem :=
  { it with timestamp := now }

/-- Python class `DropboxCache(UserDict)`: an insertion-ordered mapping
from absolute path to `CacheItem`, modelled as an association list with
distinct keys kept in insertion order. -/
abbrev DropboxCacheT := List (DbPath × CacheItem)

/-- Dict lookup `self.get(path)` / `self[path]` (first matching key). -/
def dictGet : DropboxCacheT → DbPath → Option CacheItem
  | [], _ => none
  | (q, it) :: rest, p => if q = p then some it else dictGet rest p

/-- Dict assignment `self[path] = item`: replaces the value at an existing
key in place, otherwise appends the new binding. -/
def dictSetRaw : DropboxCacheT → DbPath → CacheItem → DropboxCacheT
  | [], p, it => [(p, it)]
  | (q, old) :: rest, p, it =>
    if q = p then (q, it) :: rest else (q, old) :: dictSetRaw rest p it

/-- Dict removal `UserDict.pop(self, path, default)`: drops the binding at
`path` when present. -/
def dictPop : DropboxCacheT → DbPath → DropboxCacheT
  | [], _ => []
  | (q, it) :: rest, p => if q = p then rest else (q, it) :: dictPop rest p

/-- Python `DropboxCache.set(path, metadata)`: stores a fresh `CacheItem`
at `path`, then appends `basename(path)` to the parent entry's children
when the parent is cached. -/
def DropboxCache.set (c : DropboxCacheT) (path : DbPath) (m : Metadata)
    (now : Int) : DropboxCacheT :=
  let c1 := dictSetRaw c path (CacheItem.mk (some m) none now)
  let pr := pathsplit path
  match dictGet c1 pr.1 with
  | some item => dictSetRaw c1 pr.1 (item.add_child pr.2)
  | none => c1

/-- Python `DropboxCache.pop(path, default)`: removes the binding at
`path` and unlinks `basename(path)` from the parent entry's children when
the parent is cached.  The popped value the source returns is not needed
by any claim and is omitted. -/
def DropboxCache.pop (c : DropboxCacheT) (path : DbPath) : DropboxCacheT :=
  let c1 := dictPop c path
  let pr := pathsplit path
  match dictGet c1 pr.1 with
  | some item => dictSetRaw c1 pr.1 (item.del_child pr.2)
  | none => c1

/-! ## DropboxClient

The remote Dropbox API is an external collaborator; each client method
below takes the outcome of the remote calls it would issue as an explicit
argument.  Results carry, besides the value and the updated cache, the
number of remote calls actually performed, so that cache-hit claims can
state that no remote call happened. -/

/-- Outcome of a remote `files_get_metadata` call as the source
distinguishes the cases: success, `BadInputError` whose message contains
the text about the unsupported root folder, any other `BadInputError`,
`ApiError` with a path-not-found lookup, and any other `ApiError`. -/
inductive MetaResult where
  | ok (m : Metadata)
  | badInputRootUnsupported
  | badInputOther
  | apiNotFound
  | apiOther
deriving DecidableEq, Repr

/-- Outcome of a remote `files_list_folder` call: success with the raw
entry list, `BadInputError` whose message asks for the root folder as an
empty string, any other `BadInputError`, and `ApiError`. -/
inductive ListResult where
  | ok (entries : List Metadata)
  | badInputRootEmptyString
  | badInputOther
  | apiOther
deriving DecidableEq, Repr

/-- Local error taxonomy of the fs layer as raised by the client:
`ResourceNotFoundError`, `ResourceInvalidError`, `DestinationExistsError`,
`RemoteConnectionError`, and an uncaught `BadInputError` propagating
unchanged. -/
inductive FsError where
  | resourceNotFound
  | resourceInvalid
  | destinationExists
  | remoteConnection
  | badInputPropagated
deriving DecidableEq, Repr

/-- Update path of `DropboxClient.metadata` (the body guarded by
`if not item or item.metadata is None or item.expired`): fetches remote
metadata, synthesizes a root folder on the root-unsupported condition,
translates failures, rejects tombstones, and stores the result via plain
dict assignment. -/
def metadataFetch (cache : DropboxCacheT) (path : DbPath) (now : Int)
    (remote : MetaResult) : Except FsError (Metadata × DropboxCacheT × Nat) :=
  match remote with
  | .ok m =>
    if m.isDeleted then Except.error FsError.resourceNotFound
    else Except.ok (m, dictSetRaw cache path (CacheItem.mk (some m) none now), 1)
  | .badInputRootUnsupported =>
    let m := Metadata.folder "/" []
    Except.ok (m, dictSetRaw cache path (CacheItem.mk (some m) none now), 1)
  | .badInputOther => Except.error FsError.badInputPropagated
  | .apiNotFound => Except.error FsError.resourceNotFound
  | .apiOther => Except.error FsError.remoteConnection

/-- Python `DropboxClient.metadata(path, cache_read=True)`: a cached item
with present metadata that is not expired is returned directly (the
source returns a deep copy, which is the identity on these persistent
values); otherwise the update path runs. -/
def DropboxClient.metadata (cache : DropboxCacheT) (path : DbPath) (now : Int)
    (remote : MetaResult) (cache_read : Bool := true) :
    Except FsError (Metadata × DropboxCacheT × Nat) :=
  match (if cache_read then dictGet cache path else none) with
  | some (CacheItem.mk (some m) ch ts) =>
    if (CacheItem.mk (some m) ch ts).expired now then
      metadataFetch cache path now remote
    else Except.ok (m, cache, 0)
  | some (CacheItem.mk none _ _) => metadataFetch cache path now remote
  | none => metadataFetch cache path now remote

/-- Child names collected by the listing loop of `DropboxClient.children`:
`DeletedMetadata` entries are skipped, every other entry contributes its
`name` in listing order. -/
def liveNames (entries : List Metadata) : List String :=
  entries.filterMap (fun e => if e.isDeleted then none else some e.name)

/-- Cache updates performed by the listing loop of
`DropboxClient.children`: every non-tombstone entry is stored at its
`path_display` by plain dict assignment. -/
def cacheChildEntries (now : Int) (cache : DropboxCacheT) :
    List Metadata → DropboxCacheT
  | [] => cache
  | e :: rest =>
    if e.isDeleted then cacheChildEntries now cache rest
    else
      cacheChildEntries now
        (dictSetRaw cache e.path_display (CacheItem.mk (some e) none now)) rest

/-- Update path of `DropboxClient.children` (the body guarded by
`update`): fetches metadata (with the root-unsupported synthesis),
requires a folder, lists the folder with the documented root-sentinel
retry, skips tombstones, caches each live child and the listing itself.
`rlist` is the outcome of `files_list_folder(path)` and `rretry` that of
the retry `files_list_folder('')`; the retry is wrapped in
`except ApiError` only, so a `BadInputError` there propagates. -/
def childrenFetch (cache : DropboxCacheT) (path : DbPath) (now : Int)
    (rmeta : MetaResult) (rlist : ListResult) (rretry : ListResult) :
    Except FsError (List String × DropboxCacheT × Nat) :=
  let metaStep : Except FsError Metadata :=
    match rmeta with
    | .ok m => Except.ok m
    | .badInputRootUnsupported => Except.ok (Metadata.folder "/" [])
    | .badInputOther => Except.error FsError.badInputPropagated
    | .apiNotFound => Except.error FsError.remoteConnection
    | .apiOther => Except.error FsError.remoteConnection
  match metaStep with
  | .error e => Except.error e
  | .ok m =>
    if m.isFolder = false then Except.error FsError.resourceInvalid
    else
      let listStep : Except FsError (List Metadata × Nat) :=
        match rlist with
        | .ok entries => Except.ok (entries, 2)
        | .badInputRootEmptyString =>
          match rretry with
          | .ok entries => Except.ok (entries, 3)
          | .badInputRootEmptyString => Except.error FsError.badInputPropagated
          | .badInputOther => Except.error FsError.badInputPropagated
          | .apiOther => Except.error FsError.remoteConnection
        | .badInputOther => Except.error FsError.badInputPropagated
        | .apiOther => Except.error FsError.remoteConnection
      match listStep with
      | .error e => Except.error e
      | .ok (entries, calls) =>
        let cache1 := cacheChildEntries now cache entries
        let item := CacheItem.mk (some m) (some (liveNames entries)) now
        Except.ok (liveNames entries, dictSetRaw cache1 path item, calls)

/-- Python `not isinstance(item.metadata, FolderMetadata)` on the optional
metadata of a cache item. -/
def isFolderMeta : Option Metadata → Bool
  | some m => m.isFolder
  | none => false

/-- Python `DropboxClient.children(path)`.  The source sets `update` when
the item is missing, expired, or its `children` attribute is falsy (which
conflates `None` with the empty list `[]`); a present, unexpired item
whose cached metadata is not a folder raises `ResourceInvalidError`.  A
cache hit returns the stored children without touching the cache or the
remote API. -/
def DropboxClient.children (cache : DropboxCacheT) (path : DbPath) (now : Int)
    (rmeta : MetaResult) (rlist : ListResult) (rretry : ListResult) :
    Except FsError (List String × DropboxCacheT × Nat) :=
  match dictGet cache path with
  | some it =>
    if it.expired now then childrenFetch cache path now rmeta rlist rretry
    else if isFolderMeta it.metadata = false then
      Except.error FsError.resourceInvalid
    else
      match it.children with
      | some (c :: cs) => Except.ok (c :: cs, cache, 0)
      | some [] => childrenFetch cache path now rmeta rlist rretry
      | none => childrenFetch cache path now rmeta rlist rretry
  | none => childrenFetch cache path now rmeta rlist rretry

/-- Discriminating predicates the source applies to an `ApiError` raised
by a mutating call, as a record of flags. -/
structure ApiErrFlags where
  pathConflict : Bool
  fromLookupNotFound : Bool
  toConflict : Bool
  pathLookupNotFound : Bool
deriving DecidableEq, Repr

/-- Python `DropboxClient.files_create_folder(path)`: on remote success
the new folder is stored via `DropboxCache.set`; on `ApiError` a conflict
becomes `DestinationExistsError` and anything else
`RemoteConnectionError`, with the cache untouched. -/
def DropboxClient.files_create_folder (cache : DropboxCacheT) (path : DbPath)
    (now : Int) (remote : Except ApiErrFlags Metadata) :
    Except FsError Unit × DropboxCacheT :=
  match remote with
  | .ok m => (Except.ok (), DropboxCache.set cache path m now)
  | .error e =>
    ((if e.pathConflict then Except.error FsError.destinationExists
      else Except.error FsError.remoteConnection), cache)

/-- Python `DropboxClient.files_copy(src, dst)`. -/
def DropboxClient.files_copy (cache : DropboxCacheT) (src dst : DbPath)
    (now : Int) (remote : Except ApiErrFlags Metadata) :
    Except FsError Unit × DropboxCacheT :=
  match remote with
  | .ok m => (Except.ok (), DropboxCache.set cache dst m now)
  | .error e =>
    ((if e.fromLookupNotFound then Except.error FsError.resourceNotFound
      else if e.toConflict then Except.error FsError.destinationExists
      else Except.error FsError.remoteConnection), cache)

/-- Python `DropboxClient.files_move(src, dst)`: on success the source
entry is popped and the destination stored. -/
def DropboxClient.files_move (cache : DropboxCacheT) (src dst : DbPath)
    (now : Int) (remote : Except ApiErrFlags Metadata) :
    Except FsError Unit × DropboxCacheT :=
  match remote with
  | .ok m => (Except.ok (), DropboxCache.set (DropboxCache.pop cache src) dst m now)
  | .error e =>
    ((if e.fromLookupNotFound then Except.error FsError.resourceNotFound
      else if e.toConflict then Except.error FsError.destinationExists
      else Except.error FsError.remoteConnection), cache)

/-- Python `DropboxClient.files_delete(path)`. -/
def DropboxClient.files_delete (cache : DropboxCacheT) (path : DbPath)
    (remote : Except ApiErrFlags Unit) :
    Except FsError Unit × DropboxCacheT :=
  match remote with
  | .ok _ => (Except.ok (), DropboxCache.pop cache path)
  | .error e =>
    ((if e.pathLookupNotFound then Except.error FsError.resourceNotFound
      else Except.error FsError.remoteConnection), cache)

/-- Python `DropboxClient.files_upload(f, path, mode)`: on success the
parent directory's cache entry is popped via the overriding
`DropboxCache.pop` (`dirname(path)` is the first component of
`pathsplit`); on `ApiError` a `RemoteConnectionError` is raised with the
cache untouched. -/
def DropboxClient.files_upload (cache : DropboxCacheT) (f : List Nat)
    (path : DbPath) (remote : Except ApiErrFlags Unit) :
    Except FsError Unit × DropboxCacheT :=
  match remote with
  | .ok _ => (Except.ok (), DropboxCache.pop cache (pathsplit path).1)
  | .error _ => (Except.error FsError.remoteConnection, cache)

/-! ## Dictionary lemmas -/

/-- Assignment followed by lookup at the same key yields the assigned
item. -/
theorem dictGet_dictSetRaw_self (c : DropboxCacheT) (p : DbPath)
    (it : CacheItem) : dictGet (dictSetRaw c p it) p = some it := by
  induction c with
  | nil => simp [dictSetRaw, dictGet]
  | cons kv rest ih =>
    obtain ⟨q, old⟩ := kv
    by_cases h : q = p <;> simp [dictSetRaw, dictGet, h, ih]

/-- Assignment at one key leaves lookups at other keys unchanged. -/
theorem dictGet_dictSetRaw_ne (c : DropboxCacheT) (p q : DbPath)
    (it : CacheItem) (h : q ≠ p) :
    dictGet (dictSetRaw c p it) q = dictGet c q := by
  induction c with
  | nil => simp [dictSetRaw, dictGet, Ne.symm h]
  | cons kv rest ih =>
    obtain ⟨k, old⟩ := kv
    by_cases hk : k = p
    · subst hk
      simp [dictSetRaw, dictGet, Ne.symm h]
    · by_cases hq : k = q <;> simp [dictSetRaw, dictGet, hk, hq, h, ih]

/-- Splitting a path that visibly ends in its basename. -/
theorem pathsplit_concat (d : DbPath) (b : String) :
    pathsplit (d ++ [b]) = (d, b) := by
  simp [pathsplit]

/-! ## Claim theorems -/

/-- C7: a `CacheItem` is expired exactly when `now - timestamp >= TTL`;
in particular an entry stamped `now - TTL` is expired and one stamped
`now - TTL + 1` is not. -/
theorem spec_c7_expiry_boundary (md : Option Metadata)
    (ch : Option (List String)) (now ts : Int) :
    ((CacheItem.mk md ch ts).expired now = true ↔ CACHE_TTL ≤ now - ts)
    ∧ (CacheItem.mk md ch (now - CACHE_TTL)).expired now = true
    ∧ (CacheItem.mk md ch (now - CACHE_TTL + 1)).expired now = false := by
  refine ⟨?_, ?_, ?_⟩ <;> simp [CacheItem.expired, CACHE_TTL] <;> omega

/-- C6: every mutating cache-affecting operation
(`files_create_folder`, `files_copy`, `files_move`, `files_delete`,
`files_upload`) raises an error when the remote call fails and leaves the
cache mapping exactly as it was. -/
theorem spec_c6_failed_mutation_preserves_cache (cache : DropboxCacheT)
    (p src dst : DbPath) (now : Int) (e : ApiErrFlags) (f : List Nat) :
    ((∃ fe, (DropboxClient.files_create_folder cache p now (Except.error e)).1
        = Except.error fe)
      ∧ (DropboxClient.files_create_folder cache p now (Except.error e)).2 = cache)
    ∧ ((∃ fe, (DropboxClient.files_copy cache src dst now (Except.error e)).1
        = Except.error fe)
      ∧ (DropboxClient.files_copy cache src dst now (Except.error e)).2 = cache)
    ∧ ((∃ fe, (DropboxClient.files_move cache src dst now (Except.error e)).1
        = Except.error fe)
      ∧ (DropboxClient.files_move cache src dst now (Except.error e)).2 = cache)
    ∧ ((∃ fe, (DropboxClient.files_delete cache p (Except.error e)).1
        = Except.error fe)
      ∧ (DropboxClient.files_delete cache p (Except.error e)).2 = cache)
    ∧ ((∃ fe, (DropboxClient.files_upload cache f p (Except.error e)).1
        = Except.error fe)
      ∧ (DropboxClient.files_upload cache f p (Except.error e)).2 = cache) := by
  refine ⟨⟨?_, rfl⟩, ⟨?_, rfl⟩, ⟨?_, rfl⟩, ⟨?_, rfl⟩, ⟨?_, rfl⟩⟩ <;>
    first
    | exact ⟨_, rfl⟩
    | · dsimp only [DropboxClient.files_create_folder, DropboxClient.files_copy,
          DropboxClient.files_move, DropboxClient.files_delete,
          DropboxClient.files_upload]
        split <;> first | exact ⟨_, rfl⟩ | split <;> exact ⟨_, rfl⟩

/-- C10: `ChunkedReader.__next__` never raises `StopIteration`, because
`read()` always returns bytes (the empty string once the stream is
closed) and never `None`; on a closed stream each step keeps yielding the
empty result with the stream still closed, so iteration never
terminates. -/
theorem spec_c10_iteration_never_stops (rd : ChunkedReader) :
    rd.next ≠ Except.error ()
    ∧ (rd.r.closed = true →
        rd.next = Except.ok ([], rd.close) ∧ rd.close.r.closed = true) := by
  constructor
  · by_cases h : rd.r.closed = true <;>
      simp [ChunkedReader.next, ChunkedReader.read, h]
  · intro h
    refine ⟨by simp [ChunkedReader.next, ChunkedReader.read, h], ?_⟩
    dsimp only [ChunkedReader.close]
    rw [h]
    simp only [Bool.true_eq_false, if_false]
    split <;> exact h

/-- Concrete reader over a closed stream, for the C10 witness. -/
def closedReader : ChunkedReader :=
  { content := [], r := { data := [], consumed := 0, closed := true },
    bytes := 0, closed := false, pos := 0, seek_pos := 0 }

/-- Witness for C10 at a concrete closed reader. -/
theorem spec_c10_witness :
    closedReader.r.closed = true
    ∧ closedReader.next = Except.ok ([], closedReader.close)
    ∧ closedReader.close.r.closed = true :=
  ⟨rfl, ((spec_c10_iteration_never_stops closedReader).2 rfl).1,
    ((spec_c10_iteration_never_stops closedReader).2 rfl).2⟩

/-- Fresh reader over a 300-byte stream whose byte at offset i is i. -/
def reader300 : ChunkedReader := ChunkedReader.init (List.range 300)

set_option maxRecDepth 8000 in
/-- C1: evaluation of `ChunkedReader.read` at the failing input.  On a
fresh reader over a 300-byte stream, `seek(100)` then `read(100)` returns
the empty string, not bytes 100..199 as `read(100); seek(100); read(100)`
does: the forward reconciliation executes
`self.r.read(self.pos - self.seek_pos)` whose argument is `-100`, and a
negative amount makes the underlying stream return (and so discard) all
remaining bytes instead of the 100-byte gap. -/
theorem spec_c1_forward_gap_eval :
    (match reader300.seek 100 0 with
     | some r2 => (r2.read (some 100)).1
     | none => none) = some []
    ∧ (match ((reader300.read (some 100)).2).seek 100 0 with
       | some r2 => (r2.read (some 100)).1
       | none => none) = some (((List.range 300).drop 100).take 100)
    ∧ some ([] : List Nat) ≠ some (((List.range 300).drop 100).take 100) := by
  exact ⟨by decide, by decide, by decide⟩

/-- Writer with a 10-byte spool threshold, for the C3 evaluation. -/
def writer10 : SpooledWriter := SpooledWriter.init 10

/-- C3: evaluation of `SpooledWriter.write` at the failing input.  With a
threshold of 10, writing 8 bytes, 8 bytes and then 1 byte creates a fresh
temporary backing file twice — once on the second write (memory to disk)
and again on the third (disk to a new disk file), because the rollover
condition keeps holding once the write position passed the threshold —
refuting that the copy-to-new-backing transition occurs at most once.
The buffered bytes are nevertheless preserved verbatim, and the backing
never returns to memory. -/
theorem spec_c3_respool_eval :
    ((writer10.write (List.replicate 8 1)).write (List.replicate 8 2)).write [3]
      = { backing := Backing.disk,
          buf := (List.replicate 8 1 ++ List.replicate 8 2) ++ [3],
          max_buffer := 10, bytes := 17, spools := 2 }
    ∧ ((writer10.write (List.replicate 8 1)).write (List.replicate 8 2)).spools = 1
    ∧ (writer10.write (List.replicate 8 1)).spools = 0
    ∧ (2 : Nat) ≠ 1 := by
  exact ⟨by decide, by decide, by decide, by decide⟩

/-- C4: evaluation of `ChunkedReader.seek` at the failing input.  With
`whence = 2` the source evaluates the attribute `self.size`, which
neither the reader (its length lives in `self.bytes`) nor the underlying
response object defines, so the call fails with `AttributeError` instead
of setting the logical position to length plus offset; `whence` 0 and 1
behave as claimed, touching only `seek_pos`. -/
theorem spec_c4_seek_end_eval :
    reader300.seek 0 2 = none
    ∧ reader300.seek 7 0 = some { reader300 with seek_pos := 7 }
    ∧ reader300.seek 5 1 = some { reader300 with seek_pos := reader300.seek_pos + 5 } := by
  exact ⟨rfl, rfl, rfl⟩

/-- Metadata used in the C2 scenario. -/
def c2meta : Metadata := Metadata.folder "a" ["a"]

/-- Cache holding only a root entry, for the C2 scenario. -/
def c2cache0 : DropboxCacheT :=
  [([], CacheItem.mk (some (Metadata.folder "/" [])) none 0)]

/-- Cache after calling `DropboxCache.set` twice for the same path `/a`
while the parent entry is cached. -/
def c2cache2 : DropboxCacheT :=
  DropboxCache.set (DropboxCache.set c2cache0 ["a"] c2meta 0) ["a"] c2meta 0

/-- C2 counterexample: after two `DropboxCache.set` calls for the same
path `/a`, the parent entry is present and the basename `a` appears twice
in its children, not exactly once — `add_child` appends
unconditionally. -/
theorem spec_c2_counterexample :
    (dictGet c2cache2 []).map (fun x => (x.children.getD []).count "a") = some 2
    ∧ ¬ (dictGet c2cache2 []).map (fun x => (x.children.getD []).count "a") = some 1 := by
  exact ⟨by decide, by decide⟩

/-- C2 as amended: after `DropboxCache.set(P, M)`, if the entry at
`parent(P)` is present then `basename(P)` appears exactly once in that
parent entry's children, provided it did not already appear there before
the call. -/
theorem spec_c2_amended (c : DropboxCacheT) (d : DbPath) (b : String)
    (m : Metadata) (t : Int) (it : CacheItem)
    (hget : dictGet c d = some it)
    (hb : b ∉ it.children.getD []) :
    (dictGet (DropboxCache.set c (d ++ [b]) m t) d).map
      (fun x => (x.children.getD []).count b) = some 1 := by
  have hne : d ≠ d ++ [b] := by simp
  have h1 : dictGet (dictSetRaw c (d ++ [b]) (CacheItem.mk (some m) none t)) d
      = some it := by
    rw [dictGet_dictSetRaw_ne _ _ _ _ hne]; exact hget
  simp only [DropboxCache.set, pathsplit_concat, h1]
  rw [dictGet_dictSetRaw_self]
  cases hch : it.children with
  | none => simp [CacheItem.add_child, hch]
  | some l =>
    have hcount : l.count b = 0 := by
      rw [List.count_eq_zero]
      simpa [hch] using hb
    simp [CacheItem.add_child, hch, List.count_append, hcount]

/-- Witness for the amended C2 at a concrete cache. -/
theorem spec_c2_amended_witness :
    (dictGet (DropboxCache.set c2cache0 (([] : DbPath) ++ ["a"]) c2meta 0) []).map
      (fun x => (x.children.getD []).count "a") = some 1 :=
  spec_c2_amended c2cache0 [] "a" c2meta 0
    (CacheItem.mk (some (Metadata.folder "/" [])) none 0) (by decide) (by decide)

/-- Folder metadata for the C5 scenario. -/
def c5meta : Metadata := Metadata.folder "d" ["d"]

/-- Cache with a fresh folder entry whose fetched listing is the empty
list (`Some([])`, distinct from `None`). -/
def c5cache : DropboxCacheT :=
  [(["d"], CacheItem.mk (some c5meta) (some []) 0)]

/-- C5 counterexample: on a cached, unexpired folder entry whose fetched
children listing is empty (`Some([])`), `children` nevertheless performs
a fresh metadata fetch and a listing fetch (the third result component
counts remote calls: 2, not 0), because `if not item.children` treats the
empty list like `None`. -/
theorem spec_c5_counterexample :
    DropboxClient.children c5cache ["d"] 0 (MetaResult.ok c5meta)
      (ListResult.ok []) (ListResult.ok [])
      = Except.ok ([], c5cache, 2)
    ∧ (2 : Nat) ≠ 0 := by
  exact ⟨rfl, by decide⟩

/-- C5 as amended: for every cached, non-expired entry whose metadata is
a folder and whose fetched children listing is non-empty, `children`
returns the cached children list with the cache untouched and without
performing any remote metadata or listing call; a cached empty listing is
treated like an unfetched one and triggers a fresh fetch. -/
theorem spec_c5_amended (cache : DropboxCacheT) (p : DbPath) (now ts : Int)
    (m : Metadata) (x : String) (xs : List String)
    (hget : dictGet cache p = some (CacheItem.mk (some m) (some (x :: xs)) ts))
    (hfold : m.isFolder = true)
    (hfresh : (CacheItem.mk (some m) (some (x :: xs)) ts).expired now = false)
    (rmeta : MetaResult) (rlist rretry : ListResult) :
    DropboxClient.children cache p now rmeta rlist rretry
      = Except.ok (x :: xs, cache, 0) := by
  unfold DropboxClient.children
  rw [hget]
  simp [hfresh, isFolderMeta, hfold]

/-- Cache with a fresh folder entry holding a non-empty listing, for the
C5 witness. -/
def c5cacheW : DropboxCacheT :=
  [(["d"], CacheItem.mk (some c5meta) (some ["x"]) 0)]

/-- Witness for the amended C5: the cached non-empty listing is returned
even though every remote outcome supplied is a failure, so no remote call
can have been made. -/
theorem spec_c5_amended_witness :
    DropboxClient.children c5cacheW ["d"] 0 MetaResult.apiOther
      ListResult.apiOther ListResult.apiOther
      = Except.ok (["x"], c5cacheW, 0) :=
  spec_c5_amended c5cacheW ["d"] 0 0 c5meta "x" [] (by decide) (by decide)
    (by decide) MetaResult.apiOther ListResult.apiOther ListResult.apiOther

/-- C8: when the remote metadata call reports the root-folder-unsupported
condition and the root is not served from cache, `metadata("/")` raises
no error: it returns the synthetic `FolderMetadata(name='/')`, caches it,
and the derived info reports a directory of size 0. -/
theorem spec_c8_root_unsupported (cache : DropboxCacheT) (now : Int)
    (cr : Bool) (hmiss : dictGet cache [] = none) :
    DropboxClient.metadata cache [] now MetaResult.badInputRootUnsupported cr
      = Except.ok (Metadata.folder "/" [],
          dictSetRaw cache []
            (CacheItem.mk (some (Metadata.folder "/" [])) none now), 1)
    ∧ (metadata_to_info (Metadata.folder "/" [])).isdir = true
    ∧ (metadata_to_info (Metadata.folder "/" [])).size = 0 := by
  refine ⟨?_, rfl, rfl⟩
  unfold DropboxClient.metadata
  cases cr <;> simp [hmiss, metadataFetch]

/-- Witness for C8 on the empty cache. -/
theorem spec_c8_witness :
    DropboxClient.metadata [] [] 0 MetaResult.badInputRootUnsupported true
      = Except.ok (Metadata.folder "/" [],
          dictSetRaw [] []
            (CacheItem.mk (some (Metadata.folder "/" [])) none 0), 1)
    ∧ (metadata_to_info (Metadata.folder "/" [])).isdir = true
    ∧ (metadata_to_info (Metadata.folder "/" [])).size = 0 :=
  spec_c8_root_unsupported [] 0 true rfl

/-! ## Lemmas for the listing claim -/

/-- Paths under which the listing loop of `children` stores entries: the
`path_display` of every non-tombstone entry. -/
def livePaths (entries : List Metadata) : List DbPath :=
  (entries.filter (fun e => !e.isDeleted)).map Metadata.path_display

/-- Unfolding of `livePaths` on a cons cell. -/
theorem livePaths_cons (a : Metadata) (rest : List Metadata) :
    livePaths (a :: rest)
      = if a.isDeleted = true then livePaths rest
        else a.path_display :: livePaths rest := by
  by_cases h : a.isDeleted = true <;> simp [livePaths, List.filter_cons, h]

/-- Membership in `livePaths` implies membership among all displayed
paths. -/
theorem livePaths_subset (entries : List Metadata) (q : DbPath)
    (hq : q ∈ livePaths entries) :
    q ∈ entries.map Metadata.path_display := by
  simp only [livePaths, List.mem_map, List.mem_filter] at hq
  obtain ⟨e, ⟨he, _⟩, rfl⟩ := hq
  exact List.mem_map_of_mem _ he

/-- The listing loop leaves lookups outside `livePaths` unchanged. -/
theorem cacheChildEntries_get_notmem (now : Int) (cache : DropboxCacheT)
    (entries : List Metadata) (q : DbPath)
    (hq : q ∉ livePaths entries) :
    dictGet (cacheChildEntries now cache entries) q = dictGet cache q := by
  induction entries generalizing cache with
  | nil => rfl
  | cons e rest ih =>
    rw [livePaths_cons] at hq
    by_cases hd : e.isDeleted = true
    · rw [cacheChildEntries, if_pos hd]
      rw [if_pos hd] at hq
      exact ih cache hq
    · rw [if_neg hd] at hq
      have hq1 : q ≠ e.path_display := fun h => hq (h ▸ List.mem_cons_self _ _)
      have hq2 : q ∉ livePaths rest := fun h => hq (List.mem_cons_of_mem _ h)
      rw [cacheChildEntries, if_neg hd]
      rw [ih _ hq2, dictGet_dictSetRaw_ne _ _ _ _ hq1]

/-- Every non-tombstone entry of the listing is individually cached at
its displayed path, provided the displayed paths are distinct. -/
theorem cacheChildEntries_get_mem (now : Int) (cache : DropboxCacheT)
    (entries : List Metadata) (e : Metadata)
    (hnd : (entries.map Metadata.path_display).Nodup)
    (he : e ∈ entries) (hlive : e.isDeleted = false) :
    dictGet (cacheChildEntries now cache entries) e.path_display
      = some (CacheItem.mk (some e) none now) := by
  induction entries generalizing cache with
  | nil => cases he
  | cons a rest ih =>
    have hnd' : (rest.map Metadata.path_display).Nodup :=
      (List.nodup_cons.mp hnd).2
    have hhead : a.path_display ∉ rest.map Metadata.path_display :=
      (List.nodup_cons.mp hnd).1
    rcases List.mem_cons.mp he with rfl | hmem
    · rw [cacheChildEntries, if_neg (by simp [hlive])]
      rw [cacheChildEntries_get_notmem _ _ _ _
        (fun hmem => hhead (livePaths_subset rest _ hmem))]
      exact dictGet_dictSetRaw_self _ _ _
    · by_cases hd : a.isDeleted = true
      · rw [cacheChildEntries, if_pos hd]
        exact ih cache hnd' hmem
      · rw [cacheChildEntries, if_neg hd]
        exact ih _ hnd' hmem

/-- A tombstone's displayed path is never among the live paths when all
displayed paths are distinct. -/
theorem deleted_not_in_livePaths (entries : List Metadata) (e : Metadata)
    (hnd : (entries.map Metadata.path_display).Nodup)
    (he : e ∈ entries) (hd : e.isDeleted = true) :
    e.path_display ∉ livePaths entries := by
  induction entries with
  | nil => cases he
  | cons a rest ih =>
    have hnd' : (rest.map Metadata.path_display).Nodup :=
      (List.nodup_cons.mp hnd).2
    have hhead : a.path_display ∉ rest.map Metadata.path_display :=
      (List.nodup_cons.mp hnd).1
    rw [livePaths_cons]
    rcases List.mem_cons.mp he with rfl | hmem
    · rw [if_pos hd]
      exact fun hmm => hhead (livePaths_subset rest _ hmm)
    · by_cases hda : a.isDeleted = true
      · rw [if_pos hda]
        exact ih hnd' hmem
      · rw [if_neg hda]
        intro hmm
        rcases List.mem_cons.mp hmm with heq | htl
        · exact hhead (heq ▸ List.mem_map_of_mem _ hmem)
        · exact ih hnd' hmem htl

/-- Live names and tombstones together account for the whole listing. -/
theorem liveNames_length_add (entries : List Metadata) :
    (liveNames entries).length
      + (entries.filter (fun e => e.isDeleted)).length = entries.length := by
  induction entries with
  | nil => rfl
  | cons a rest ih =>
    by_cases h : a.isDeleted = true
    · simp [liveNames, List.filterMap_cons, List.filter_cons, h] at ih ⊢
      omega
    · simp [liveNames, List.filterMap_cons, List.filter_cons, h] at ih ⊢
      omega

/-- C9: on a cache miss, a folder listing whose four entries contain
exactly one tombstone yields exactly the three non-tombstone names (the
order-preserving `liveNames`), caches every non-tombstone entry so that
a subsequent `metadata()` on it within the TTL is a cache hit performing
no remote call (the call count is 0 and the result ignores the supplied
remote outcome), and stores nothing under the tombstone's path. -/
theorem spec_c9_tombstone_listing (cache : DropboxCacheT) (p : DbPath)
    (now nowq : Int) (m : Metadata) (entries : List Metadata)
    (rretry : ListResult)
    (hmiss : dictGet cache p = none)
    (hfold : m.isFolder = true)
    (hlen : entries.length = 4)
    (htomb : (entries.filter (fun e => e.isDeleted)).length = 1)
    (hnd : (entries.map Metadata.path_display).Nodup)
    (hnotp : ∀ e ∈ entries, e.path_display ≠ p)
    (hfresh : nowq - CACHE_TTL < now) :
    DropboxClient.children cache p now (MetaResult.ok m)
        (ListResult.ok entries) rretry
      = Except.ok (liveNames entries,
          dictSetRaw (cacheChildEntries now cache entries) p
            (CacheItem.mk (some m) (some (liveNames entries)) now), 2)
    ∧ (liveNames entries).length = 3
    ∧ (∀ rem : MetaResult, ∀ e ∈ entries, e.isDeleted = false →
        DropboxClient.metadata
          (dictSetRaw (cacheChildEntries now cache entries) p
            (CacheItem.mk (some m) (some (liveNames entries)) now))
          e.path_display nowq rem true
          = Except.ok (e,
              dictSetRaw (cacheChildEntries now cache entries) p
                (CacheItem.mk (some m) (some (liveNames entries)) now), 0))
    ∧ (∀ e ∈ entries, e.isDeleted = true →
        dictGet (dictSetRaw (cacheChildEntries now cache entries) p
            (CacheItem.mk (some m) (some (liveNames entries)) now))
          e.path_display
          = dictGet cache e.path_display) := by
  refine ⟨?_, ?_, ?_, ?_⟩
  · unfold DropboxClient.children
    rw [hmiss]
    simp [childrenFetch, hfold, liveNames]
  · have := liveNames_length_add entries
    omega
  · intro rem e hmem hlive
    have hne : e.path_display ≠ p := hnotp e hmem
    have hchild : dictGet
        (dictSetRaw (cacheChildEntries now cache entries) p
          (CacheItem.mk (some m) (some (liveNames entries)) now))
        e.path_display = some (CacheItem.mk (some e) none now) := by
      rw [dictGet_dictSetRaw_ne _ _ _ _ hne]
      exact cacheChildEntries_get_mem now cache entries e hnd hmem hlive
    have hexp : (CacheItem.mk (some e) none now).expired nowq = false := by
      simp only [CacheItem.expired, decide_eq_false_iff_not]
      omega
    unfold DropboxClient.metadata
    simp only [if_true]
    rw [hchild]
    simp [hexp]
  · intro e hmem hdel
    rw [dictGet_dictSetRaw_ne _ _ _ _ (hnotp e hmem)]
    exact cacheChildEntries_get_notmem now cache entries _
      (deleted_not_in_livePaths entries e hnd hmem hdel)

/-- Folder metadata of the listed directory in the C9 witness. -/
def c9m : Metadata := Metadata.folder "d" ["d"]

/-- Concrete four-entry listing with exactly one tombstone. -/
def c9entries : List Metadata :=
  [Metadata.file "a" ["d", "a"] 1 none,
   Metadata.deleted "b" ["d", "b"],
   Metadata.file "c" ["d", "c"] 2 none,
   Metadata.folder "e" ["d", "e"]]

/-- Cache state after the C9 listing on an initially empty cache. -/
def c9cacheAfter : DropboxCacheT :=
  dictSetRaw (cacheChildEntries 0 [] c9entries) ["d"]
    (CacheItem.mk (some c9m) (some (liveNames c9entries)) 0)

/-- Witness for C9 with four concrete entries of which the second is a
tombstone. -/
theorem spec_c9_witness :
    DropboxClient.children [] ["d"] 0 (MetaResult.ok c9m)
        (ListResult.ok c9entries) ListResult.apiOther
      = Except.ok (liveNames c9entries, c9cacheAfter, 2)
    ∧ (liveNames c9entries).length = 3
    ∧ (∀ rem : MetaResult, ∀ e ∈ c9entries, e.isDeleted = false →
        DropboxClient.metadata c9cacheAfter e.path_display 0 rem true
          = Except.ok (e, c9cacheAfter, 0))
    ∧ (∀ e ∈ c9entries, e.isDeleted = true →
        dictGet c9cacheAfter e.path_display
          = dictGet ([] : DropboxCacheT) e.path_display) :=
  spec_c9_tombstone_listing [] ["d"] 0 0 c9m c9entries ListResult.apiOther
    rfl (by decide) (by decide) (by decide) (by decide) (by decide) (by decide)
